import Mathlib

/-!
Verification development for the `overlay` repository (src/src/main.rs): a
borderless transparent overlay window driving an imgui/wgpu render loop,
with a Shift+Escape click-through toggle.

The source is a single `main` with an event-loop closure (lines 114-213).
We embed it shallowly: the mutable locals of the closure become the fields
of `Overlay.LoopState`, one closure invocation becomes `Overlay.stepE`, and
external effects (os adapter calls, swapchain acquisition, queue submission,
event forwarding to imgui-winit) become elements of an output list.
Timestamps (`std::time::Instant`) are modelled as integer microseconds;
`f64` window-geometry arithmetic is modelled exactly over `ℚ`.
-/

namespace Overlay

/-- wgpu pixel formats. The source uses only `Bgra8Unorm` (lines 61, 129); one
alternative constructor is kept so that "format unchanged" is not vacuous. -/
inductive TextureFormat
  | Bgra8Unorm
  | Rgba8Unorm
deriving DecidableEq, Repr

/-- wgpu presentation modes; the source always selects `NoVsync` (lines 64, 132). -/
inductive PresentMode
  | NoVsync
  | Vsync
deriving DecidableEq, Repr

/-- wgpu texture usage; the source always selects `OUTPUT_ATTACHMENT` (lines 60, 128). -/
inductive TextureUsage
  | OUTPUT_ATTACHMENT
  | SAMPLED
deriving DecidableEq, Repr

/-- `wgpu::SwapChainDescriptor` (lines 59-65, 127-133). -/
structure SwapChainDescriptor where
  usage : TextureUsage
  format : TextureFormat
  width : Nat
  height : Nat
  present_mode : PresentMode
deriving DecidableEq, Repr

/-- winit logical size (f64 coordinates modelled as ℚ). -/
structure LogicalSize where
  width : ℚ
  height : ℚ
deriving DecidableEq, Repr

/-- winit physical size (f64 coordinates modelled as ℚ). -/
structure PhysicalSize where
  width : ℚ
  height : ℚ
deriving DecidableEq, Repr

/-- winit `PhysicalSize::to_logical`: divide both coordinates by the hidpi factor. -/
def PhysicalSize.to_logical (p : PhysicalSize) (hidpi_factor : ℚ) : LogicalSize :=
  ⟨p.width / hidpi_factor, p.height / hidpi_factor⟩

/-- winit `LogicalSize::to_physical`: multiply both coordinates by the hidpi factor. -/
def LogicalSize.to_physical (l : LogicalSize) (hidpi_factor : ℚ) : PhysicalSize :=
  ⟨l.width * hidpi_factor, l.height * hidpi_factor⟩

/-- Rust `as u32` on an `f64` (lines 62-63, 130-131): truncation toward zero,
saturating at 0 for negative values. -/
def ratAsU32 (q : ℚ) : Nat := q.floor.toNat

/-- winit `ElementState`. -/
inductive ElementState
  | Pressed
  | Released
deriving DecidableEq, Repr

/-- winit virtual key codes; `Escape` is the one the source matches on (line 141),
two others stand in for the rest of the keyboard. -/
inductive VirtualKeyCode
  | Escape
  | Space
  | A
deriving DecidableEq, Repr

/-- winit `ModifiersState` (the source's pattern requires `shift: true`, line 142). -/
structure ModifiersState where
  shift : Bool
  ctrl : Bool
  alt : Bool
  logo : Bool
deriving DecidableEq, Repr

/-- winit `KeyboardInput` (the fields the source's pattern names, lines 139-144). -/
structure KeyboardInput where
  state : ElementState
  virtual_keycode : Option VirtualKeyCode
  modifiers : ModifiersState
deriving DecidableEq, Repr

/-- winit `DeviceEvent`: device-level key edges (key-down / key-up), plus a
representative non-key device event. -/
inductive DeviceEvent
  | Key (input : KeyboardInput)
  | MouseMotion
deriving DecidableEq, Repr

/-- winit `WindowEvent`. `Resized` carries the event's size payload (which the
source ignores, binding it `_` at line 122). `KeyboardRepeat` models a held
key's OS autorepeat signal: it is delivered as a window-level keyboard event,
not as a device-level key edge, so it is distinct from the `DeviceEvent::Key`
pattern the source matches. -/
inductive WindowEvent
  | Resized (payload : LogicalSize)
  | CloseRequested
  | KeyboardRepeat (input : KeyboardInput)
  | CursorMoved
deriving DecidableEq, Repr

/-- winit `Event` (the constructors the source's match distinguishes). -/
inductive Event
  | WindowEvent (event : WindowEvent)
  | DeviceEvent (event : DeviceEvent)
  | EventsCleared
  | Suspended
deriving DecidableEq, Repr

/-- winit `ControlFlow`. -/
inductive ControlFlow
  | Poll
  | Wait
  | Exit
deriving DecidableEq, Repr

/-- The spec's `OverlayMode` enum. -/
inductive OverlayMode
  | Clickable
  | ClickThrough
deriving DecidableEq, Repr

/-- The source encodes the overlay mode as `overlay_clickable : bool` (line 111):
`true` is `Clickable`, `false` is `ClickThrough`; the initial value `false`
makes the initial mode `ClickThrough`. -/
def OverlayMode.ofBool : Bool → OverlayMode
  | true => OverlayMode.Clickable
  | false => OverlayMode.ClickThrough

/-- Calls into the `os` module's platform adapter (lines 148, 150). -/
inductive AdapterCall
  | make_window_overlay_clickthrough
  | make_window_overlay_clickable
deriving DecidableEq, Repr

/-- Modelled from the spec: `src/os.rs` (declared `mod os;` at line 16) is not
among the sources; per spec §6 the platform adapter exposes
`set_clickthrough(window, enabled)`, and the two calls the loop makes map to
it: `make_window_overlay_clickthrough` enables click-through
(`set_clickthrough(window, true)`) and `make_window_overlay_clickable`
disables it (`set_clickthrough(window, false)`). -/
def AdapterCall.set_clickthrough_enabled : AdapterCall → Bool
  | AdapterCall.make_window_overlay_clickthrough => true
  | AdapterCall.make_window_overlay_clickable => false

/-- Observable effects of one closure invocation:
`adapter` = an `os::` platform-adapter call (lines 148/150);
`acquire` = `swap_chain.get_next_texture()` (line 166), recording the
descriptor the live swapchain was created from;
`uiFrame` = the frame's UI build consuming `delta_s` microseconds (line 193);
`submit` = `queue.submit` (line 207);
`forward` = `platform.handle_event` (line 212). -/
inductive Output
  | adapter (call : AdapterCall)
  | acquire (config : SwapChainDescriptor)
  | uiFrame (delta_us : ℤ)
  | submit
  | forward (e : Event)
deriving DecidableEq, Repr

/-- Per-invocation environment: results of the OS/GPU/UI queries the closure
makes. `now` is `Instant::now()` (line 161) in microseconds; `inner_size` is
what `window.inner_size()` returns at handling time (line 125); `prepare_ok`
and `render_ok` are whether `platform.prepare_frame` (line 168) and
`renderer.render` (line 204) return `Ok`. -/
structure Env where
  now : ℤ
  inner_size : LogicalSize
  prepare_ok : Bool
  render_ok : Bool
deriving DecidableEq, Repr

/-- The mutable locals captured by the event-loop closure:
`size` (line 23/125), `sc_desc` (line 59), the descriptor the live
`swap_chain` was created from (lines 67/135), `hidpi_factor` (line 33),
`last_frame` (line 108), `overlay_clickable` (line 111), and the loop's
`control_flow` slot. -/
structure LoopState where
  size : PhysicalSize
  sc_desc : SwapChainDescriptor
  swap_chain : SwapChainDescriptor
  hidpi_factor : ℚ
  last_frame : ℤ
  overlay_clickable : Bool
  control_flow : ControlFlow
deriving DecidableEq, Repr

/-- Result of one closure invocation: the updated locals, `some msg` when the
invocation panicked (aborting the process), and the observable outputs emitted
before the panic, in program order. -/
structure StepOut where
  st : LoopState
  panicMsg : Option String
  outs : List Output
deriving DecidableEq, Repr

/-- `cfg!(feature = "metal-auto-capture")` (line 115): the feature is off in
the default build. -/
def metal_auto_capture : Bool := false

/-- Build a `SwapChainDescriptor` from a physical size, exactly as both
construction sites do (lines 59-65 and 127-133): usage, format and
present_mode are fixed constants; width/height are the size cast `as u32`. -/
def mkScDesc (size : PhysicalSize) : SwapChainDescriptor :=
  { usage := TextureUsage.OUTPUT_ATTACHMENT
  , format := TextureFormat.Bgra8Unorm
  , width := ratAsU32 size.width
  , height := ratAsU32 size.height
  , present_mode := PresentMode.NoVsync }

/-- The `WindowEvent::Resized` arm (lines 121-136): `size` is re-queried from
the window (the event payload is ignored), converted with the startup
`hidpi_factor`; `sc_desc` is replaced wholesale by a freshly built descriptor
and the swapchain recreated from it. No output besides the unconditional
event forwarding (line 212). -/
def resizeStep (env : Env) (st : LoopState) (e : Event) : StepOut :=
  let size := env.inner_size.to_physical st.hidpi_factor
  let sc_desc := mkScDesc size
  { st := { st with size := size, sc_desc := sc_desc, swap_chain := sc_desc }
  , panicMsg := none
  , outs := [Output.forward e] }

/-- The Shift+Escape `DeviceEvent::Key` arm (lines 137-153): the adapter call
is chosen from the current `overlay_clickable`, then the flag is flipped. -/
def hotkeyStep (st : LoopState) (e : Event) : StepOut :=
  let call := if st.overlay_clickable then AdapterCall.make_window_overlay_clickthrough
              else AdapterCall.make_window_overlay_clickable
  { st := { st with overlay_clickable := !st.overlay_clickable }
  , panicMsg := none
  , outs := [Output.adapter call, Output.forward e] }

/-- The `Event::EventsCleared` arm (lines 160-208): compute the frame delta
and advance `last_frame` (161-164), acquire the next swapchain texture (166),
prepare the imgui frame — `.expect("Failed to prepare frame")` panics on
failure (167-169) — build the UI showing `delta_s` (170-197), encode and
render — `.expect("Rendering failed")` panics on failure (199-205) — and
submit (207). On success the event is also forwarded (212); a panic never
reaches line 212. -/
def clearedStep (env : Env) (st : LoopState) (e : Event) : StepOut :=
  let now := env.now
  let delta := now - st.last_frame
  let delta_s := delta
  let st := { st with last_frame := now }
  if !env.prepare_ok then
    { st := st, panicMsg := some "Failed to prepare frame"
    , outs := [Output.acquire st.swap_chain] }
  else if !env.render_ok then
    { st := st, panicMsg := some "Rendering failed"
    , outs := [Output.acquire st.swap_chain, Output.uiFrame delta_s] }
  else
    { st := st, panicMsg := none
    , outs := [Output.acquire st.swap_chain, Output.uiFrame delta_s,
               Output.submit, Output.forward e] }

/-- One invocation of the event-loop closure (lines 114-213). The closure
first unconditionally overwrites `control_flow` (lines 115-119), then matches
the event in source order: `Resized`, the Shift+Escape key-down device edge,
`CloseRequested` (sets `control_flow = Exit`), `EventsCleared`, catch-all;
finally every non-panicking invocation forwards the event to
`platform.handle_event` (line 212). -/
def stepE (env : Env) (st0 : LoopState) (event : Event) : StepOut :=
  let st := { st0 with
    control_flow := if metal_auto_capture then ControlFlow.Exit else ControlFlow.Poll }
  match event with
  | Event.WindowEvent (WindowEvent.Resized _) => resizeStep env st event
  | Event.DeviceEvent (DeviceEvent.Key
      ⟨ElementState.Pressed, some VirtualKeyCode.Escape, ⟨true, _, _, _⟩⟩) =>
      hotkeyStep st event
  | Event.WindowEvent WindowEvent.CloseRequested =>
      { st := { st with control_flow := ControlFlow.Exit }
      , panicMsg := none, outs := [Output.forward event] }
  | Event.EventsCleared => clearedStep env st event
  | _ => { st := st, panicMsg := none, outs := [Output.forward event] }

/-- Does an event match the hotkey arm's pattern (lines 137-146): a
device-level key-down edge for `Escape` with shift held? -/
def isHotkey : Event → Bool
  | Event.DeviceEvent (DeviceEvent.Key
      ⟨ElementState.Pressed, some VirtualKeyCode.Escape, ⟨true, _, _, _⟩⟩) => true
  | _ => false

/-- Is the event a held-key autorepeat signal (window-level, not a device
edge)? -/
def isRepeatSignal : Event → Bool
  | Event.WindowEvent (WindowEvent.KeyboardRepeat _) => true
  | _ => false

/-- Is the event a resize? -/
def isResize : Event → Bool
  | Event.WindowEvent (WindowEvent.Resized _) => true
  | _ => false

/-- The platform-adapter calls among a list of outputs. -/
def adapterCalls (outs : List Output) : List AdapterCall :=
  outs.filterMap fun o => match o with
    | Output.adapter c => some c
    | _ => none

/-- The swapchain descriptors acquisitions were made against, among a list of
outputs. -/
def acquires (outs : List Output) : List SwapChainDescriptor :=
  outs.filterMap fun o => match o with
    | Output.acquire c => some c
    | _ => none

/-- The running process: the closure's locals plus whether the process has
panicked (a Rust panic in `main` aborts the process; `halted` records its
message). -/
structure Machine where
  st : LoopState
  halted : Option String
deriving DecidableEq, Repr

/-- One event delivered by the OS together with the environment (clock, window
queries, fallible-call results) of its handling. -/
structure Stimulus where
  event : Event
  env : Env
deriving DecidableEq, Repr

/-- Deliver one stimulus to the process: a panicked process does nothing. -/
def step1 (m : Machine) (s : Stimulus) : Machine × List Output :=
  match m.halted with
  | some _ => (m, [])
  | none =>
      let r := stepE s.env m.st s.event
      ({ st := r.st, halted := r.panicMsg }, r.outs)

/-- Deliver a list of stimuli in order, concatenating the outputs. -/
def stepList (m : Machine) (xs : List Stimulus) : Machine × List Output :=
  match xs with
  | [] => (m, [])
  | s :: rest =>
      let p := step1 m s
      let q := stepList p.1 rest
      (q.1, p.2 ++ q.2)

/-- One OS event batch: the batch's events (in delivery order), followed by
the `EventsCleared` signal whose environment is `cleared`. -/
structure Iteration where
  events : List Stimulus
  cleared : Env
deriving DecidableEq, Repr

/-- One loop iteration: dispatch the drained batch, then the `EventsCleared`
signal. -/
def runIter (m : Machine) (it : Iteration) : Machine × List Output :=
  let p := stepList m it.events
  let q := step1 p.1 { event := Event.EventsCleared, env := it.cleared }
  (q.1, p.2 ++ q.2)

/-- Modelled from the spec: the external event-loop driver
(`winit::EventLoop::run`, not part of the sources). Per spec §5, "the close
event ... sets a termination flag consulted at the top of the next loop
iteration": before starting an iteration the driver consults `control_flow`
and stops when it is `Exit`; otherwise it dispatches the iteration's batch
and its `EventsCleared` signal. -/
def runLoop (m : Machine) (its : List Iteration) : Machine × List Output :=
  match its with
  | [] => (m, [])
  | it :: rest =>
      if m.st.control_flow = ControlFlow.Exit then (m, [])
      else
        let p := runIter m it
        let q := runLoop p.1 rest
        (q.1, p.2 ++ q.2)

/-- Startup window geometry (lines 26-38): the window is positioned at
`LogicalPosition { x: 0.0, y: 0.0 }` — the origin — and its inner size is set
to the current monitor's resolution converted to logical coordinates. -/
structure Window where
  outer_position : ℚ × ℚ
  inner_size : LogicalSize
deriving DecidableEq, Repr

/-- The window as configured at startup (lines 35-36). -/
def startupWindow (monitor_size : PhysicalSize) (hidpi_factor : ℚ) : Window :=
  { outer_position := (0, 0)
  , inner_size := monitor_size.to_logical hidpi_factor }

/-- `let size = window.inner_size().to_physical(hidpi_factor)` (line 38). -/
def startupSize (monitor_size : PhysicalSize) (hidpi_factor : ℚ) : PhysicalSize :=
  (startupWindow monitor_size hidpi_factor).inner_size.to_physical hidpi_factor

/-- The initial `sc_desc` (lines 59-65), built from the startup size. -/
def initial_sc_desc (monitor_size : PhysicalSize) (hidpi_factor : ℚ) : SwapChainDescriptor :=
  mkScDesc (startupSize monitor_size hidpi_factor)

/-- The closure's locals as initialized before the loop starts: `size` and
`sc_desc` from startup (38, 59-65), the swapchain created from `sc_desc`
(67), `hidpi_factor` captured once (33), `last_frame = Instant::now()` at
instant `t0` (108), `overlay_clickable = false` (111), and winit's default
`control_flow` of `Poll`. -/
def initLoopState (monitor_size : PhysicalSize) (hidpi_factor : ℚ) (t0 : ℤ) : LoopState :=
  { size := startupSize monitor_size hidpi_factor
  , sc_desc := initial_sc_desc monitor_size hidpi_factor
  , swap_chain := initial_sc_desc monitor_size hidpi_factor
  , hidpi_factor := hidpi_factor
  , last_frame := t0
  , overlay_clickable := false
  , control_flow := ControlFlow.Poll }

/-- The process as it enters `event_loop.run`. -/
def initMachine (monitor_size : PhysicalSize) (hidpi_factor : ℚ) (t0 : ℤ) : Machine :=
  { st := initLoopState monitor_size hidpi_factor t0, halted := none }

/-- The frame clock (lines 108, 161-164): from the stored `last_frame` and the
current instant `now` (microseconds), produce the frame delta
(`delta.as_micros()`, line 163) and the advanced timestamp (line 164). -/
def tick (last_frame now : ℤ) : ℤ × ℤ := (now - last_frame, now)

/-! ### Step characterization

`stepGuards` restates the closure's match as a chain of guards on event
classifiers; `stepE_eq_guards` proves it equal to `stepE`, so later lemmas
can split on the classifiers instead of the compiled match. -/

/-- Guard-form restatement of `stepE`. -/
def stepGuards (env : Env) (st0 : LoopState) (event : Event) : StepOut :=
  let st := { st0 with
    control_flow := if metal_auto_capture then ControlFlow.Exit else ControlFlow.Poll }
  if isResize event then resizeStep env st event
  else if isHotkey event then hotkeyStep st event
  else if event = Event.WindowEvent WindowEvent.CloseRequested then
    { st := { st with control_flow := ControlFlow.Exit }
    , panicMsg := none, outs := [Output.forward event] }
  else if event = Event.EventsCleared then clearedStep env st event
  else { st := st, panicMsg := none, outs := [Output.forward event] }

theorem stepE_eq_guards (env : Env) (st : LoopState) (e : Event) :
    stepE env st e = stepGuards env st e := by
  cases e with
  | WindowEvent we => cases we <;> rfl
  | DeviceEvent de =>
    cases de with
    | Key i =>
      obtain ⟨s, vk, ms⟩ := i
      obtain ⟨sh, c, a, l⟩ := ms
      cases s <;> rcases vk with _ | k <;> cases sh
      all_goals (first | rfl | (cases k <;> rfl))
    | MouseMotion => rfl
  | EventsCleared => rfl
  | Suspended => rfl

theorem not_hotkey_of_isResize (e : Event) (h : isResize e = true) : isHotkey e = false := by
  cases e with
  | WindowEvent we => cases we <;> rfl
  | DeviceEvent de => simp [isResize] at h
  | EventsCleared => simp [isResize] at h
  | Suspended => simp [isResize] at h

theorem not_hotkey_of_isRepeatSignal (e : Event) (h : isRepeatSignal e = true) :
    isHotkey e = false := by
  cases e with
  | WindowEvent we => cases we <;> rfl
  | DeviceEvent de => simp [isRepeatSignal] at h
  | EventsCleared => simp [isRepeatSignal] at h
  | Suspended => simp [isRepeatSignal] at h

theorem ne_cleared_of_isHotkey (e : Event) (h : isHotkey e = true) :
    e ≠ Event.EventsCleared := by
  intro he
  subst he
  simp [isHotkey] at h

theorem ne_cleared_of_isRepeatSignal (e : Event) (h : isRepeatSignal e = true) :
    e ≠ Event.EventsCleared := by
  intro he
  subst he
  simp [isRepeatSignal] at h

theorem not_resize_of_isHotkey (e : Event) (h : isHotkey e = true) : isResize e = false := by
  cases e with
  | WindowEvent we => cases we <;> simp [isHotkey] at h
  | DeviceEvent de => rfl
  | EventsCleared => rfl
  | Suspended => rfl

/-- The hidpi factor captured at startup (line 33) is read, never written, by
every arm of the closure. -/
theorem stepE_hidpi (env : Env) (st : LoopState) (e : Event) :
    (stepE env st e).st.hidpi_factor = st.hidpi_factor := by
  rw [stepE_eq_guards]
  unfold stepGuards resizeStep hotkeyStep clearedStep
  split_ifs <;> rfl

/-- Only the `EventsCleared` arm contains a panicking call. -/
theorem stepE_panicMsg_of_ne (env : Env) (st : LoopState) (e : Event)
    (h : e ≠ Event.EventsCleared) : (stepE env st e).panicMsg = none := by
  rw [stepE_eq_guards]
  unfold stepGuards resizeStep hotkeyStep clearedStep
  split_ifs <;> rfl

/-- Only the resize arm touches the swapchain. -/
theorem stepE_swap_chain_of_not_resize (env : Env) (st : LoopState) (e : Event)
    (h : isResize e = false) : (stepE env st e).st.swap_chain = st.swap_chain := by
  rw [stepE_eq_guards]
  unfold stepGuards resizeStep hotkeyStep clearedStep
  split_ifs <;> first | rfl | simp_all

/-- A qualifying hotkey edge flips `overlay_clickable` (line 152). -/
theorem stepE_clickable_of_hotkey (env : Env) (st : LoopState) (e : Event)
    (h : isHotkey e = true) :
    (stepE env st e).st.overlay_clickable = !st.overlay_clickable := by
  rw [stepE_eq_guards]
  unfold stepGuards resizeStep hotkeyStep clearedStep
  split_ifs <;> first | rfl | simp_all [not_resize_of_isHotkey]

/-- No other arm touches `overlay_clickable`. -/
theorem stepE_clickable_of_not_hotkey (env : Env) (st : LoopState) (e : Event)
    (h : isHotkey e = false) :
    (stepE env st e).st.overlay_clickable = st.overlay_clickable := by
  rw [stepE_eq_guards]
  unfold stepGuards resizeStep hotkeyStep clearedStep
  split_ifs <;> first | rfl | simp_all

/-- An invocation emits exactly one adapter call when the event is the hotkey
edge — chosen from the current `overlay_clickable` — and none otherwise. -/
theorem adapterCalls_stepE (env : Env) (st : LoopState) (e : Event) :
    adapterCalls (stepE env st e).outs =
      (if isHotkey e then
        [if st.overlay_clickable then AdapterCall.make_window_overlay_clickthrough
         else AdapterCall.make_window_overlay_clickable]
       else []) := by
  rw [stepE_eq_guards]
  unfold stepGuards resizeStep hotkeyStep clearedStep
  split_ifs <;> first | rfl | simp_all [adapterCalls, not_hotkey_of_isResize]

/-- Acquisition happens exactly in the `EventsCleared` arm, against the config
the live swapchain was created from. -/
theorem acquires_stepE (env : Env) (st : LoopState) (e : Event) :
    acquires (stepE env st e).outs =
      (if e = Event.EventsCleared then [st.swap_chain] else []) := by
  rw [stepE_eq_guards]
  unfold stepGuards resizeStep hotkeyStep clearedStep
  split_ifs <;> first | rfl | simp_all [acquires, isResize, isHotkey]

/-- Every non-panicking invocation reaches `platform.handle_event` (line 212)
with the event it processed. -/
theorem forward_mem_stepE (env : Env) (st : LoopState) (e : Event)
    (h : (stepE env st e).panicMsg = none) :
    Output.forward e ∈ (stepE env st e).outs := by
  rw [stepE_eq_guards] at h ⊢
  unfold stepGuards resizeStep hotkeyStep clearedStep at h ⊢
  split_ifs at h ⊢ <;> simp_all

/-- The `EventsCleared` arm changes exactly `last_frame` among the closure's
own locals (plus the unconditional `control_flow` overwrite of lines 115-119,
which belongs to the loop preamble, not to the frame clock). -/
theorem stepE_st_cleared (env : Env) (st : LoopState) :
    (stepE env st Event.EventsCleared).st
      = { st with last_frame := env.now, control_flow := ControlFlow.Poll } := by
  unfold stepE clearedStep
  simp only [metal_auto_capture, Bool.false_eq_true, if_false]
  split_ifs <;> rfl

/-- The resize arm, fully reduced. -/
theorem stepE_resized (env : Env) (st : LoopState) (p : LogicalSize) :
    stepE env st (Event.WindowEvent (WindowEvent.Resized p)) =
      resizeStep env { st with control_flow := ControlFlow.Poll }
        (Event.WindowEvent (WindowEvent.Resized p)) := rfl

/-- Any event matching the hotkey pattern takes the hotkey arm. -/
theorem stepE_hotkey_eq (env : Env) (st : LoopState) (e : Event)
    (h : isHotkey e = true) :
    stepE env st e = hotkeyStep { st with control_flow := ControlFlow.Poll } e := by
  rw [stepE_eq_guards]
  unfold stepGuards
  simp [not_resize_of_isHotkey e h, h, metal_auto_capture]

/-! ### Process-level lemmas -/

theorem step1_of_halted (m : Machine) (s : Stimulus) (msg : String)
    (h : m.halted = some msg) : step1 m s = (m, []) := by
  unfold step1
  rw [h]

theorem step1_of_none (m : Machine) (s : Stimulus) (h : m.halted = none) :
    step1 m s = ({ st := (stepE s.env m.st s.event).st
                 , halted := (stepE s.env m.st s.event).panicMsg }
                , (stepE s.env m.st s.event).outs) := by
  unfold step1
  rw [h]

theorem stepList_of_halted (m : Machine) (xs : List Stimulus) (msg : String)
    (h : m.halted = some msg) : stepList m xs = (m, []) := by
  induction xs with
  | nil => rfl
  | cons s rest ih => simp only [stepList, step1_of_halted m s msg h, ih, List.nil_append]

/-- A panic is permanent: if the machine is unhalted after a run, it was
unhalted before it. -/
theorem stepList_halted_none (m : Machine) (xs : List Stimulus)
    (h : (stepList m xs).1.halted = none) : m.halted = none := by
  cases hm : m.halted with
  | none => rfl
  | some msg =>
      rw [stepList_of_halted m xs msg hm] at h
      rw [hm] at h
      exact absurd h (by simp)

theorem step1_hidpi (m : Machine) (s : Stimulus) :
    (step1 m s).1.st.hidpi_factor = m.st.hidpi_factor := by
  cases hm : m.halted with
  | none => rw [step1_of_none m s hm]; exact stepE_hidpi _ _ _
  | some msg => rw [step1_of_halted m s msg hm]

/-- No stimulus ever changes the hidpi factor: it is captured once at startup
(line 33) and never refreshed. -/
theorem stepList_hidpi (m : Machine) (xs : List Stimulus) :
    (stepList m xs).1.st.hidpi_factor = m.st.hidpi_factor := by
  induction xs generalizing m with
  | nil => rfl
  | cons s rest ih => simp only [stepList]; rw [ih, step1_hidpi]

theorem step1_swap_chain (m : Machine) (s : Stimulus) (h : isResize s.event = false) :
    (step1 m s).1.st.swap_chain = m.st.swap_chain := by
  cases hm : m.halted with
  | none => rw [step1_of_none m s hm]; exact stepE_swap_chain_of_not_resize _ _ _ h
  | some msg => rw [step1_of_halted m s msg hm]

/-- A run containing no resize event leaves the swapchain untouched. -/
theorem stepList_swap_chain (m : Machine) (xs : List Stimulus)
    (h : ∀ s ∈ xs, isResize s.event = false) :
    (stepList m xs).1.st.swap_chain = m.st.swap_chain := by
  induction xs generalizing m with
  | nil => rfl
  | cons s rest ih =>
      simp only [stepList]
      rw [ih _ (fun t ht => h t (List.mem_cons_of_mem s ht)),
        step1_swap_chain m s (h s (List.mem_cons_self s rest))]

theorem stepList_append1 (m : Machine) (xs ys : List Stimulus) :
    (stepList m (xs ++ ys)).1 = (stepList (stepList m xs).1 ys).1 := by
  induction xs generalizing m with
  | nil => rfl
  | cons s rest ih =>
      simp only [List.cons_append, stepList]
      exact ih _

/-- An acquisition in a delivered stimulus is made by an unhalted machine,
against the config its live swapchain was created from. -/
theorem acquire_mem_step1 (m : Machine) (s : Stimulus) (cfg : SwapChainDescriptor)
    (h : cfg ∈ acquires (step1 m s).2) :
    m.halted = none ∧ cfg = m.st.swap_chain := by
  cases hm : m.halted with
  | none =>
      refine ⟨rfl, ?_⟩
      rw [step1_of_none m s hm] at h
      simp only [acquires_stepE] at h
      split_ifs at h with he
      · simpa using h
      · exact absurd h (by simp)
  | some msg =>
      rw [step1_of_halted m s msg hm] at h
      exact absurd h (by simp [acquires])

theorem parity_succ (c : Nat) : decide ((c + 1) % 2 = 1) = !decide (c % 2 = 1) := by
  rcases Nat.mod_two_eq_zero_or_one c with h | h <;> simp [Nat.add_mod, h]

/-- Toggle parity: over any run made of hotkey edges and held-key repeat
signals, `overlay_clickable` ends up as its initial value xor-ed with the
parity of the number of hotkey edges — repeat signals contribute nothing. -/
theorem stepList_clickable_parity (xs : List Stimulus) (m : Machine)
    (hm : m.halted = none)
    (hxs : ∀ s ∈ xs, isHotkey s.event = true ∨ isRepeatSignal s.event = true) :
    (stepList m xs).1.st.overlay_clickable
      = Bool.xor m.st.overlay_clickable
          (decide ((List.countP (fun s => isHotkey s.event) xs) % 2 = 1)) := by
  induction xs generalizing m with
  | nil => simp [stepList]
  | cons s rest ih =>
      have hs := hxs s (List.mem_cons_self s rest)
      have hrest : ∀ t ∈ rest, isHotkey t.event = true ∨ isRepeatSignal t.event = true :=
        fun t ht => hxs t (List.mem_cons_of_mem s ht)
      have hne : s.event ≠ Event.EventsCleared := by
        rcases hs with h | h
        · exact ne_cleared_of_isHotkey _ h
        · exact ne_cleared_of_isRepeatSignal _ h
      have hpn : (stepE s.env m.st s.event).panicMsg = none :=
        stepE_panicMsg_of_ne _ _ _ hne
      rw [List.countP_cons]
      simp only [stepList]
      rw [step1_of_none m s hm, ih _ hpn hrest]
      rcases hs with h | h
      · rw [stepE_clickable_of_hotkey _ _ _ h]
        simp only [h, if_true, parity_succ]
        cases m.st.overlay_clickable <;>
          cases hd : decide (List.countP (fun s => isHotkey s.event) rest % 2 = 1) <;> rfl
      · rw [stepE_clickable_of_not_hotkey _ _ _ (not_hotkey_of_isRepeatSignal _ h)]
        simp [not_hotkey_of_isRepeatSignal _ h]

/-- Claim C1: starting from the initial mode `ClickThrough`
(`overlay_clickable = false`, line 111), a run consisting of qualifying
hotkey-press edges (device-level Shift+Escape key-down, lines 137-146) and
held-key repeat signals ends in `Clickable` when the number of edges is odd
and in `ClickThrough` when it is even; the repeat signals cause zero
additional transitions. -/
theorem C1_toggle_parity (monitor_size : PhysicalSize) (hidpi_factor : ℚ) (t0 : ℤ)
    (xs : List Stimulus)
    (hxs : ∀ s ∈ xs, isHotkey s.event = true ∨ isRepeatSignal s.event = true) :
    OverlayMode.ofBool
        (stepList (initMachine monitor_size hidpi_factor t0) xs).1.st.overlay_clickable
      = (if (List.countP (fun s => isHotkey s.event) xs) % 2 = 1
         then OverlayMode.Clickable else OverlayMode.ClickThrough) := by
  rw [stepList_clickable_parity xs _ rfl hxs]
  show OverlayMode.ofBool (Bool.xor false _) = _
  rw [Bool.false_xor]
  by_cases h : (List.countP (fun s => isHotkey s.event) xs) % 2 = 1
  · simp [h, OverlayMode.ofBool]
  · simp [h, OverlayMode.ofBool]

/-- Witness for C1: two hotkey edges with a held-key repeat signal between
them — an even number of edges — end back in `ClickThrough`. -/
theorem C1_toggle_parity_witness :
    OverlayMode.ofBool
        (stepList (initMachine ⟨1920, 1080⟩ 1 0)
          [ { event := Event.DeviceEvent (DeviceEvent.Key
                ⟨ElementState.Pressed, some VirtualKeyCode.Escape, ⟨true, false, false, false⟩⟩)
            , env := { now := 1, inner_size := ⟨1920, 1080⟩, prepare_ok := true, render_ok := true } }
          , { event := Event.WindowEvent (WindowEvent.KeyboardRepeat
                ⟨ElementState.Pressed, some VirtualKeyCode.Escape, ⟨true, false, false, false⟩⟩)
            , env := { now := 2, inner_size := ⟨1920, 1080⟩, prepare_ok := true, render_ok := true } }
          , { event := Event.DeviceEvent (DeviceEvent.Key
                ⟨ElementState.Pressed, some VirtualKeyCode.Escape, ⟨true, false, false, false⟩⟩)
            , env := { now := 3, inner_size := ⟨1920, 1080⟩, prepare_ok := true, render_ok := true } } ]).1.st.overlay_clickable
      = OverlayMode.ClickThrough :=
  C1_toggle_parity ⟨1920, 1080⟩ 1 0 _ (by decide)

/-- Claim C5: from the initial `ClickThrough` state, the first qualifying
hotkey edge makes the adapter receive the make-clickable call
(`set_clickthrough(window, false)`) and the state becomes `Clickable`; the
second edge makes it receive the make-clickthrough call
(`set_clickthrough(window, true)`) and the state returns to `ClickThrough`;
an invocation emits exactly one adapter call per hotkey edge and none for any
other event. -/
theorem C5_adapter_scenario (monitor_size : PhysicalSize) (hidpi_factor : ℚ) (t0 : ℤ)
    (s1 s2 : Stimulus)
    (h1 : isHotkey s1.event = true) (h2 : isHotkey s2.event = true) :
    (adapterCalls (step1 (initMachine monitor_size hidpi_factor t0) s1).2).map
        AdapterCall.set_clickthrough_enabled = [false]
    ∧ OverlayMode.ofBool
        (step1 (initMachine monitor_size hidpi_factor t0) s1).1.st.overlay_clickable
      = OverlayMode.Clickable
    ∧ (adapterCalls
        (step1 (step1 (initMachine monitor_size hidpi_factor t0) s1).1 s2).2).map
        AdapterCall.set_clickthrough_enabled = [true]
    ∧ OverlayMode.ofBool
        (step1 (step1 (initMachine monitor_size hidpi_factor t0) s1).1 s2).1.st.overlay_clickable
      = OverlayMode.ClickThrough
    ∧ (∀ (env : Env) (st : LoopState) (e : Event), isHotkey e = true →
        (adapterCalls (stepE env st e).outs).length = 1)
    ∧ (∀ (env : Env) (st : LoopState) (e : Event), isHotkey e = false →
        adapterCalls (stepE env st e).outs = []) := by
  have hm0 : (initMachine monitor_size hidpi_factor t0).halted = none := rfl
  have hb0 : (initMachine monitor_size hidpi_factor t0).st.overlay_clickable = false := rfl
  have e1 := step1_of_none (initMachine monitor_size hidpi_factor t0) s1 hm0
  have hpn1 : (stepE s1.env (initMachine monitor_size hidpi_factor t0).st s1.event).panicMsg
      = none := stepE_panicMsg_of_ne _ _ _ (ne_cleared_of_isHotkey _ h1)
  have hb1 : (stepE s1.env (initMachine monitor_size hidpi_factor t0).st
      s1.event).st.overlay_clickable = true := by
    rw [stepE_clickable_of_hotkey _ _ _ h1, hb0]
    rfl
  have e2 := step1_of_none (step1 (initMachine monitor_size hidpi_factor t0) s1).1 s2
    (by rw [e1]; exact hpn1)
  refine ⟨?_, ?_, ?_, ?_, ?_, ?_⟩
  · rw [e1]
    simp [adapterCalls_stepE, h1, hb0, AdapterCall.set_clickthrough_enabled]
  · rw [e1]
    simp [hb1, OverlayMode.ofBool]
  · rw [e2]
    simp only [e1]
    simp [adapterCalls_stepE, h2, hb1, AdapterCall.set_clickthrough_enabled]
  · rw [e2]
    simp only [e1]
    rw [stepE_clickable_of_hotkey _ _ _ h2]
    simp [hb1, OverlayMode.ofBool]
  · intro env st e he
    simp [adapterCalls_stepE, he]
  · intro env st e he
    simp [adapterCalls_stepE, he]

/-- Witness for C5 at a concrete hotkey edge (Shift+Escape key-down with no
other modifiers), starting from the startup state. -/
theorem C5_adapter_scenario_witness :
    (adapterCalls (step1 (initMachine ⟨1920, 1080⟩ 1 0)
        { event := Event.DeviceEvent (DeviceEvent.Key
            ⟨ElementState.Pressed, some VirtualKeyCode.Escape, ⟨true, false, false, false⟩⟩)
        , env := { now := 1, inner_size := ⟨1920, 1080⟩, prepare_ok := true, render_ok := true } }).2).map
      AdapterCall.set_clickthrough_enabled = [false] :=
  (C5_adapter_scenario ⟨1920, 1080⟩ 1 0
    { event := Event.DeviceEvent (DeviceEvent.Key
        ⟨ElementState.Pressed, some VirtualKeyCode.Escape, ⟨true, false, false, false⟩⟩)
    , env := { now := 1, inner_size := ⟨1920, 1080⟩, prepare_ok := true, render_ok := true } }
    { event := Event.DeviceEvent (DeviceEvent.Key
        ⟨ElementState.Pressed, some VirtualKeyCode.Escape, ⟨true, false, false, false⟩⟩)
    , env := { now := 2, inner_size := ⟨1920, 1080⟩, prepare_ok := true, render_ok := true } }
    (by decide) (by decide)).1

/-- Claim C8: the event forwarding at line 212 sits after the match,
unconditionally: every invocation that completes (does not panic) forwards
its event to the external UI/input-routing layer, whether or not one of the
loop's own arms (resize, hotkey, close) consumed it; every non-frame event
is forwarded unconditionally since only the `EventsCleared` arm can panic. -/
theorem C8_forward_all (env : Env) (st : LoopState) (e : Event) :
    ((stepE env st e).panicMsg = none → Output.forward e ∈ (stepE env st e).outs)
    ∧ (e ≠ Event.EventsCleared → Output.forward e ∈ (stepE env st e).outs) :=
  ⟨forward_mem_stepE env st e,
   fun h => forward_mem_stepE env st e (stepE_panicMsg_of_ne env st e h)⟩

/-- Witness for C8: a close event — consumed by the close arm — is still
forwarded. -/
theorem C8_forward_all_witness :
    Output.forward (Event.WindowEvent WindowEvent.CloseRequested) ∈
      (stepE { now := 0, inner_size := ⟨1920, 1080⟩, prepare_ok := true, render_ok := true }
        (initLoopState ⟨1920, 1080⟩ 1 0)
        (Event.WindowEvent WindowEvent.CloseRequested)).outs :=
  (C8_forward_all _ _ _).2 (by decide)

/-- Claim C10: the resize arm ignores the size payload carried by the event
(bound `_` at line 122) — its result is identical for any two payloads — and
instead rebuilds the config from `window.inner_size()` queried at handling
time, converted with the stored hidpi factor, which was captured once at
startup and is never written by any later processing. (Only the forwarding of
the raw event at line 212 sees the payload, so the resulting state and
panic status are payload-independent.) -/
theorem C10_resize_uses_query (env : Env) (st : LoopState) (p1 p2 : LogicalSize)
    (m : Machine) (xs : List Stimulus) :
    (stepE env st (Event.WindowEvent (WindowEvent.Resized p1))).st
      = (stepE env st (Event.WindowEvent (WindowEvent.Resized p2))).st
    ∧ (stepE env st (Event.WindowEvent (WindowEvent.Resized p1))).panicMsg
      = (stepE env st (Event.WindowEvent (WindowEvent.Resized p2))).panicMsg
    ∧ (stepE env st (Event.WindowEvent (WindowEvent.Resized p1))).st.sc_desc
      = mkScDesc (env.inner_size.to_physical st.hidpi_factor)
    ∧ (stepList m xs).1.st.hidpi_factor = m.st.hidpi_factor :=
  ⟨rfl, rfl, rfl, stepList_hidpi m xs⟩

theorem ratAsU32_natCast (n : Nat) : ratAsU32 (n : ℚ) = n := by
  unfold ratAsU32
  rw [Rat.floor_def']
  simp

/-- Claim C4: a resize whose re-queried window size converts to physical
dimensions (w, h) leaves the active `sc_desc` with width = w and height = h,
format (`Bgra8Unorm`) and presentation mode (`NoVsync`) unchanged; the
descriptor is replaced wholesale by a freshly built one, whose value is
independent of the prior descriptor. -/
theorem C4_resize_rebuild (env : Env) (st : LoopState) (p : LogicalSize) (w h : Nat)
    (hwh : env.inner_size.to_physical st.hidpi_factor = ⟨(w : ℚ), (h : ℚ)⟩)
    (hfmt : st.sc_desc.format = TextureFormat.Bgra8Unorm)
    (hpm : st.sc_desc.present_mode = PresentMode.NoVsync) :
    (stepE env st (Event.WindowEvent (WindowEvent.Resized p))).st.sc_desc.width = w
    ∧ (stepE env st (Event.WindowEvent (WindowEvent.Resized p))).st.sc_desc.height = h
    ∧ (stepE env st (Event.WindowEvent (WindowEvent.Resized p))).st.sc_desc.format
      = st.sc_desc.format
    ∧ (stepE env st (Event.WindowEvent (WindowEvent.Resized p))).st.sc_desc.present_mode
      = st.sc_desc.present_mode
    ∧ (stepE env st (Event.WindowEvent (WindowEvent.Resized p))).st.sc_desc
      = mkScDesc (env.inner_size.to_physical st.hidpi_factor)
    ∧ (∀ st2 : LoopState, st2.hidpi_factor = st.hidpi_factor →
        (stepE env st2 (Event.WindowEvent (WindowEvent.Resized p))).st.sc_desc
          = (stepE env st (Event.WindowEvent (WindowEvent.Resized p))).st.sc_desc) := by
  have hdesc : (stepE env st (Event.WindowEvent (WindowEvent.Resized p))).st.sc_desc
      = mkScDesc (env.inner_size.to_physical st.hidpi_factor) := rfl
  refine ⟨?_, ?_, ?_, ?_, hdesc, ?_⟩
  · rw [hdesc, hwh]
    exact ratAsU32_natCast w
  · rw [hdesc, hwh]
    exact ratAsU32_natCast h
  · rw [hdesc, hfmt]
    rfl
  · rw [hdesc, hpm]
    rfl
  · intro st2 h2
    show mkScDesc (env.inner_size.to_physical st2.hidpi_factor)
      = mkScDesc (env.inner_size.to_physical st.hidpi_factor)
    rw [h2]

/-- Witness for C4: a resize while the window's inner size is 1280×720
logical at scale factor 1 rebuilds the descriptor to 1280×720. -/
theorem C4_resize_rebuild_witness :
    (stepE { now := 0, inner_size := ⟨1280, 720⟩, prepare_ok := true, render_ok := true }
        (initLoopState ⟨1920, 1080⟩ 1 0)
        (Event.WindowEvent (WindowEvent.Resized ⟨640, 480⟩))).st.sc_desc.width = 1280 :=
  (C4_resize_rebuild
    { now := 0, inner_size := ⟨1280, 720⟩, prepare_ok := true, render_ok := true }
    (initLoopState ⟨1920, 1080⟩ 1 0) ⟨640, 480⟩ 1280 720
    (by norm_num [LogicalSize.to_physical, initLoopState])
    (by rfl) (by rfl)).1

/-- Claim C9: at startup the window is positioned at the origin (the monitor
origin, `LogicalPosition { 0, 0 }`, line 35) and sized to the current
monitor's resolution (line 36); the initial `sc_desc` has width/height equal
to that resolution converted back to physical pixels (lines 38, 59-65), with
the fixed format and presentation mode. -/
theorem C9_startup_geometry (w h : Nat) (s : ℚ) (hs : 0 < s) :
    (startupWindow ⟨(w : ℚ), (h : ℚ)⟩ s).outer_position = ((0 : ℚ), (0 : ℚ))
    ∧ (startupWindow ⟨(w : ℚ), (h : ℚ)⟩ s).inner_size
      = PhysicalSize.to_logical ⟨(w : ℚ), (h : ℚ)⟩ s
    ∧ startupSize ⟨(w : ℚ), (h : ℚ)⟩ s = ⟨(w : ℚ), (h : ℚ)⟩
    ∧ (initial_sc_desc ⟨(w : ℚ), (h : ℚ)⟩ s).width = w
    ∧ (initial_sc_desc ⟨(w : ℚ), (h : ℚ)⟩ s).height = h
    ∧ (initial_sc_desc ⟨(w : ℚ), (h : ℚ)⟩ s).format = TextureFormat.Bgra8Unorm
    ∧ (initial_sc_desc ⟨(w : ℚ), (h : ℚ)⟩ s).present_mode = PresentMode.NoVsync := by
  have hsize : startupSize ⟨(w : ℚ), (h : ℚ)⟩ s = ⟨(w : ℚ), (h : ℚ)⟩ := by
    unfold startupSize startupWindow PhysicalSize.to_logical LogicalSize.to_physical
    simp only
    rw [div_mul_cancel₀ _ (ne_of_gt hs), div_mul_cancel₀ _ (ne_of_gt hs)]
  have hdesc : initial_sc_desc ⟨(w : ℚ), (h : ℚ)⟩ s = mkScDesc ⟨(w : ℚ), (h : ℚ)⟩ := by
    unfold initial_sc_desc
    rw [hsize]
  refine ⟨rfl, rfl, hsize, ?_, ?_, ?_, ?_⟩
  · rw [hdesc]
    exact ratAsU32_natCast w
  · rw [hdesc]
    exact ratAsU32_natCast h
  · rw [hdesc]
    rfl
  · rw [hdesc]
    rfl

/-- Witness for C9: a 1920×1080 monitor at scale factor 1 yields an initial
descriptor of width 1920. -/
theorem C9_startup_geometry_witness :
    0 < (1 : ℚ) ∧ (initial_sc_desc ⟨(1920 : ℚ), (1080 : ℚ)⟩ 1).width = 1920 :=
  ⟨by norm_num,
   by
    have := (C9_startup_geometry 1920 1080 1 (by norm_num)).2.2.2.1
    simpa using this⟩

/-- Claim C3: any acquisition made after a resize stimulus — with no further
resize delivered in between — is made against exactly the config rebuilt by
that resize (from the window size queried while handling it, scaled by the
invariant hidpi factor), never against a prior config; the resize invocation
itself performs no acquisition, so no acquisition can fall between observing
the resize and rebuilding the config. -/
theorem C3_resize_before_acquire (m0 : Machine) (pre mid : List Stimulus)
    (p : LogicalSize) (envr : Env) (sAcq : Stimulus) (cfg : SwapChainDescriptor)
    (hmid : ∀ s ∈ mid, isResize s.event = false)
    (hacq : cfg ∈ acquires (step1 (stepList m0
        (pre ++ ({ event := Event.WindowEvent (WindowEvent.Resized p), env := envr }
          :: mid))).1 sAcq).2) :
    cfg = mkScDesc (envr.inner_size.to_physical (stepList m0 pre).1.st.hidpi_factor)
    ∧ acquires (stepE envr (stepList m0 pre).1.st
        (Event.WindowEvent (WindowEvent.Resized p))).outs = [] := by
  constructor
  · set rs : Stimulus :=
      { event := Event.WindowEvent (WindowEvent.Resized p), env := envr } with hrs
    have hsplit : (stepList m0 (pre ++ (rs :: mid))).1
        = (stepList (step1 (stepList m0 pre).1 rs).1 mid).1 := by
      rw [stepList_append1]
      simp only [stepList]
    rw [hsplit] at hacq
    obtain ⟨hM, hcfg⟩ := acquire_mem_step1 _ _ _ hacq
    have h2 : (step1 (stepList m0 pre).1 rs).1.halted = none :=
      stepList_halted_none _ mid hM
    have h1 : (stepList m0 pre).1.halted = none := by
      cases hh : (stepList m0 pre).1.halted with
      | none => rfl
      | some msg =>
          rw [step1_of_halted _ _ _ hh, hh] at h2
          exact absurd h2 (by simp)
    have hsw : (step1 (stepList m0 pre).1 rs).1.st.swap_chain
        = mkScDesc (envr.inner_size.to_physical (stepList m0 pre).1.st.hidpi_factor) := by
      rw [step1_of_none _ _ h1]
      rfl
    rw [hcfg, stepList_swap_chain _ mid hmid, hsw]
  · simp [acquires_stepE]

/-- Witness for C3: from the startup state, a resize (window now 1280×720
logical at scale 1) followed by a frame acquires against the rebuilt
1280×720 descriptor. -/
theorem C3_resize_before_acquire_witness :
    (⟨TextureUsage.OUTPUT_ATTACHMENT, TextureFormat.Bgra8Unorm, 1280, 720,
        PresentMode.NoVsync⟩ : SwapChainDescriptor)
      = mkScDesc ((⟨1280, 720⟩ : LogicalSize).to_physical
          (stepList (initMachine ⟨1920, 1080⟩ 1 0) []).1.st.hidpi_factor)
    ∧ acquires (stepE { now := 1, inner_size := ⟨1280, 720⟩, prepare_ok := true, render_ok := true }
        (stepList (initMachine ⟨1920, 1080⟩ 1 0) []).1.st
        (Event.WindowEvent (WindowEvent.Resized ⟨1280, 720⟩))).outs = [] :=
  C3_resize_before_acquire (initMachine ⟨1920, 1080⟩ 1 0) [] [] ⟨1280, 720⟩
    { now := 1, inner_size := ⟨1280, 720⟩, prepare_ok := true, render_ok := true }
    { event := Event.EventsCleared
    , env := { now := 2, inner_size := ⟨1280, 720⟩, prepare_ok := true, render_ok := true } }
    ⟨TextureUsage.OUTPUT_ATTACHMENT, TextureFormat.Bgra8Unorm, 1280, 720, PresentMode.NoVsync⟩
    (by decide)
    (by
      simp only [List.nil_append, stepList, step1, stepE, resizeStep, clearedStep,
        initMachine, initLoopState, metal_auto_capture, acquires]
      norm_num [mkScDesc, ratAsU32, LogicalSize.to_physical, Rat.floor_def',
        initial_sc_desc, startupSize, startupWindow, PhysicalSize.to_logical]
      exact Or.inl ⟨rfl, rfl⟩)

/-- Claim C2 as stated is false at a concrete input: when
`platform.prepare_frame` fails during a frame, `.expect("Failed to prepare
frame")` (line 169) panics — the process halts, and the next frame produces
no outputs at all, instead of the failure being logged, the frame skipped
and the loop proceeding. -/
theorem C2_counterexample :
    (step1 (initMachine ⟨1920, 1080⟩ 1 0)
        { event := Event.EventsCleared
        , env := { now := 5, inner_size := ⟨1920, 1080⟩, prepare_ok := false, render_ok := true } }).1.halted
      = some "Failed to prepare frame"
    ∧ (step1 (step1 (initMachine ⟨1920, 1080⟩ 1 0)
        { event := Event.EventsCleared
        , env := { now := 5, inner_size := ⟨1920, 1080⟩, prepare_ok := false, render_ok := true } }).1
        { event := Event.EventsCleared
        , env := { now := 6, inner_size := ⟨1920, 1080⟩, prepare_ok := true, render_ok := true } }).2
      = [] := by
  constructor
  · rfl
  · rfl

/-- Claim C2 amended: per-frame UI-preparation and render/encode failures are
fatal, not skipped: a preparation failure panics with diagnostic "Failed to
prepare frame", a render failure panics with "Rendering failed"; in either
case no submission is made (so there is indeed no partial GPU submission),
and the halted process performs no further processing and emits no further
outputs. (Frame acquisition, `get_next_texture` at line 166, has no failure
path at this API level.) -/
theorem C2_amended (env : Env) (st : LoopState) (m : Machine) (msg : String)
    (s : Stimulus) :
    (env.prepare_ok = false →
      (stepE env st Event.EventsCleared).panicMsg = some "Failed to prepare frame"
      ∧ Output.submit ∉ (stepE env st Event.EventsCleared).outs)
    ∧ (env.prepare_ok = true → env.render_ok = false →
      (stepE env st Event.EventsCleared).panicMsg = some "Rendering failed"
      ∧ Output.submit ∉ (stepE env st Event.EventsCleared).outs)
    ∧ (m.halted = some msg → stepList m [s] = (m, [])) := by
  refine ⟨?_, ?_, ?_⟩
  · intro hp
    unfold stepE clearedStep
    simp [hp]
  · intro hp hr
    unfold stepE clearedStep
    simp [hp, hr]
  · intro hm
    exact stepList_of_halted m [s] msg hm

/-- Witness for C2 (amended): a concrete preparation failure. -/
theorem C2_amended_witness :
    (stepE { now := 5, inner_size := ⟨1920, 1080⟩, prepare_ok := false, render_ok := true }
        (initLoopState ⟨1920, 1080⟩ 1 0) Event.EventsCleared).panicMsg
      = some "Failed to prepare frame"
    ∧ Output.submit ∉
      (stepE { now := 5, inner_size := ⟨1920, 1080⟩, prepare_ok := false, render_ok := true }
        (initLoopState ⟨1920, 1080⟩ 1 0) Event.EventsCleared).outs :=
  (C2_amended { now := 5, inner_size := ⟨1920, 1080⟩, prepare_ok := false, render_ok := true }
    (initLoopState ⟨1920, 1080⟩ 1 0) (initMachine ⟨1920, 1080⟩ 1 0) "msg"
    { event := Event.EventsCleared
    , env := { now := 6, inner_size := ⟨1920, 1080⟩, prepare_ok := true, render_ok := true } }).1
    rfl

/-- Claim C6 as stated is false at a concrete input: with the clock
initialized at instant 0 (`last_frame = Instant::now()`, line 108) and the
first frame at instant 5, the first frame delta shown by the UI is 5 — the
elapsed time since initialization — not a configured zero baseline. -/
theorem C6_counterexample :
    (tick 0 5).1 = 5 ∧ (5 : ℤ) ≠ 0
    ∧ Output.uiFrame 5 ∈ (step1 (initMachine ⟨1920, 1080⟩ 1 0)
        { event := Event.EventsCleared
        , env := { now := 5, inner_size := ⟨1920, 1080⟩, prepare_ok := true, render_ok := true } }).2
    ∧ Output.uiFrame 0 ∉ (step1 (initMachine ⟨1920, 1080⟩ 1 0)
        { event := Event.EventsCleared
        , env := { now := 5, inner_size := ⟨1920, 1080⟩, prepare_ok := true, render_ok := true } }).2 := by
  refine ⟨rfl, by decide, ?_, ?_⟩
  · show Output.uiFrame 5 ∈ [Output.acquire _, Output.uiFrame ((5:ℤ) - 0), Output.submit,
      Output.forward Event.EventsCleared]
    simp
  · show Output.uiFrame 0 ∉ [Output.acquire _, Output.uiFrame ((5:ℤ) - 0), Output.submit,
      Output.forward Event.EventsCleared]
    simp

/-- Claim C6 amended: the first tick returns the elapsed time since the
clock's initialization (`last_frame` is initialized to the startup instant,
line 108), not a configured baseline; with a monotone clock every tick's
delta is non-negative; each frame sets `last_frame` to the current instant —
monotonically increasing — and the frame arm changes nothing else among the
closure's locals (besides the loop-preamble `control_flow` overwrite of
lines 115-119, which is not part of the clock). -/
theorem C6_amended (t0 t1 t2 : ℤ) (env : Env) (st : LoopState)
    (h01 : t0 ≤ t1) (h12 : t1 ≤ t2) (hmono : st.last_frame ≤ env.now) :
    (tick t0 t1).1 = t1 - t0
    ∧ 0 ≤ (tick t0 t1).1
    ∧ (tick (tick t0 t1).2 t2).1 = t2 - t1
    ∧ 0 ≤ (tick (tick t0 t1).2 t2).1
    ∧ (tick t0 t1).2 = t1
    ∧ (stepE env st Event.EventsCleared).st.last_frame = env.now
    ∧ st.last_frame ≤ (stepE env st Event.EventsCleared).st.last_frame
    ∧ (stepE env st Event.EventsCleared).st
      = { st with last_frame := env.now, control_flow := ControlFlow.Poll } := by
  have hst := stepE_st_cleared env st
  refine ⟨rfl, by simpa [tick] using sub_nonneg.mpr h01, rfl,
    by simpa [tick] using sub_nonneg.mpr h12, rfl, ?_, ?_, hst⟩
  · rw [hst]
  · rw [hst]
    exact hmono

/-- Witness for C6 (amended): initialization at 0, frames at 3 and 7. -/
theorem C6_amended_witness :
    (tick 0 3).1 = 3 - 0
    ∧ 0 ≤ (tick 0 3).1
    ∧ (tick (tick 0 3).2 7).1 = 7 - 3
    ∧ 0 ≤ (tick (tick 0 3).2 7).1
    ∧ (tick 0 3).2 = 3
    ∧ (stepE { now := 3, inner_size := ⟨1920, 1080⟩, prepare_ok := true, render_ok := true }
        (initLoopState ⟨1920, 1080⟩ 1 0) Event.EventsCleared).st.last_frame = 3
    ∧ (initLoopState ⟨1920, 1080⟩ 1 0).last_frame ≤
      (stepE { now := 3, inner_size := ⟨1920, 1080⟩, prepare_ok := true, render_ok := true }
        (initLoopState ⟨1920, 1080⟩ 1 0) Event.EventsCleared).st.last_frame
    ∧ (stepE { now := 3, inner_size := ⟨1920, 1080⟩, prepare_ok := true, render_ok := true }
        (initLoopState ⟨1920, 1080⟩ 1 0) Event.EventsCleared).st
      = { initLoopState ⟨1920, 1080⟩ 1 0 with
          last_frame := 3, control_flow := ControlFlow.Poll } :=
  C6_amended 0 3 7
    { now := 3, inner_size := ⟨1920, 1080⟩, prepare_ok := true, render_ok := true }
    (initLoopState ⟨1920, 1080⟩ 1 0) (by decide) (by decide) (by decide)

/-- Claim C7 is violated by the code: `CloseRequested` at iteration k does
set `control_flow = Exit` (line 158), but the closure unconditionally
overwrites `control_flow` at the top of every invocation (lines 115-119), so
the same batch's `EventsCleared` invocation resets it to `Poll`; the driver —
which consults the flag at the top of the next iteration (spec §5) — keeps
running, and iteration k+1 still acquires a frame, renders and submits,
contradicting "no frame acquisition or render occurs at iteration k+1 or
later". -/
theorem C7_close_not_honored :
    (stepE { now := 1, inner_size := ⟨1920, 1080⟩, prepare_ok := true, render_ok := true }
        (initMachine ⟨1920, 1080⟩ 1 0).st
        (Event.WindowEvent WindowEvent.CloseRequested)).st.control_flow
      = ControlFlow.Exit
    ∧ (runIter (initMachine ⟨1920, 1080⟩ 1 0)
        { events := [{ event := Event.WindowEvent WindowEvent.CloseRequested
                     , env := { now := 1, inner_size := ⟨1920, 1080⟩, prepare_ok := true, render_ok := true } }]
        , cleared := { now := 2, inner_size := ⟨1920, 1080⟩, prepare_ok := true, render_ok := true } }).1.st.control_flow
      = ControlFlow.Poll
    ∧ (acquires (runIter
        (runIter (initMachine ⟨1920, 1080⟩ 1 0)
          { events := [{ event := Event.WindowEvent WindowEvent.CloseRequested
                       , env := { now := 1, inner_size := ⟨1920, 1080⟩, prepare_ok := true, render_ok := true } }]
          , cleared := { now := 2, inner_size := ⟨1920, 1080⟩, prepare_ok := true, render_ok := true } }).1
        { events := []
        , cleared := { now := 3, inner_size := ⟨1920, 1080⟩, prepare_ok := true, render_ok := true } }).2).length
      = 1
    ∧ Output.submit ∈ (runIter
        (runIter (initMachine ⟨1920, 1080⟩ 1 0)
          { events := [{ event := Event.WindowEvent WindowEvent.CloseRequested
                       , env := { now := 1, inner_size := ⟨1920, 1080⟩, prepare_ok := true, render_ok := true } }]
          , cleared := { now := 2, inner_size := ⟨1920, 1080⟩, prepare_ok := true, render_ok := true } }).1
        { events := []
        , cleared := { now := 3, inner_size := ⟨1920, 1080⟩, prepare_ok := true, render_ok := true } }).2
    ∧ (acquires (runLoop (initMachine ⟨1920, 1080⟩ 1 0)
        [ { events := [{ event := Event.WindowEvent WindowEvent.CloseRequested
                       , env := { now := 1, inner_size := ⟨1920, 1080⟩, prepare_ok := true, render_ok := true } }]
          , cleared := { now := 2, inner_size := ⟨1920, 1080⟩, prepare_ok := true, render_ok := true } }
        , { events := []
          , cleared := { now := 3, inner_size := ⟨1920, 1080⟩, prepare_ok := true, render_ok := true } } ]).2).length
      = 2 := by
  refine ⟨rfl, rfl, rfl, ?_, rfl⟩
  show Output.submit ∈ [Output.acquire _, Output.uiFrame _, Output.submit,
    Output.forward Event.EventsCleared]
  simp

end Overlay
